import Mathlib

/-!
Verification of the chista-express REST API builder
(`src/ExpressRestApiBuilder.ts`, `src/RestApiError.ts`, `src/middleware.ts`).

The TypeScript sources are embedded shallowly: JavaScript runtime values are
modelled by the inductive `JSVal`, user-supplied strategy callbacks by Lean
functions returning an `Outcome` (normal value or thrown value), and each
private method of `ExpressRestApiBuilder` by a Lean definition of the same
shape.  Side effects (logger calls, the WebSocket close, the rendered HTTP
response, which callbacks were invoked) are returned explicitly.
-/

namespace Chista

/-- A JavaScript number: NaN, the two infinities, or a finite value
(modelled as a rational, which suffices for the integrality and range
checks performed by the sources). -/
inductive JSNumber where
  | nan
  | posInf
  | negInf
  | finite (q : ℚ)

/-- A JavaScript runtime value.  `funcV` is a callable (identified by an id;
its behaviour, when needed, is supplied separately as a Lean function),
`extV` is an opaque host object (socket, WebSocket handle, uploaded file),
`arrV`/`objV` are arrays and plain objects. -/
inductive JSVal where
  | undefV
  | null
  | boolV (b : Bool)
  | numV (n : JSNumber)
  | strV (s : String)
  | funcV (id : Nat)
  | extV (id : Nat)
  | arrV (elems : List JSVal)
  | objV (fields : List (String × JSVal))

/-- The JavaScript `typeof` operator on the modelled values. -/
def typeofVal : JSVal → String
  | .undefV => "undefined"
  | .null => "object"
  | .boolV _ => "boolean"
  | .numV _ => "number"
  | .strV _ => "string"
  | .funcV _ => "function"
  | .extV _ => "object"
  | .arrV _ => "object"
  | .objV _ => "object"

/-- Property read on an object modelled as an association list.  JavaScript
object literals and spreads let a later binding shadow an earlier one, so the
last binding of a key wins. -/
def jsGet (fields : List (String × JSVal)) (key : String) : JSVal :=
  match fields.reverse.find? (fun p => p.1 == key) with
  | some p => p.2
  | none => .undefV  -- absent keys read as undefined

/-- Whether the object has an own binding for `key`. -/
def hasKey (fields : List (String × JSVal)) (key : String) : Bool :=
  fields.any (fun p => p.1 == key)

/-- Property read on an arbitrary value: plain objects expose their fields;
named property reads on the other modelled values yield `undefined`
(arrays and opaque host objects carry no modelled named properties). -/
def getProp : JSVal → String → JSVal
  | .objV fields, key => jsGet fields key
  | _, _ => .undefV  -- no modelled named properties

/-- `Except.isOk`-style Boolean view used throughout. -/
def exOk {ε α : Type} : Except ε α → Bool
  | .ok _ => true
  | .error _ => false

/-! ## Error Value (`src/RestApiError.ts`) -/

/-- The `message` the `RestApiError` constructor passes to `super`:
`typeof data.message === 'string' ? data.message : 'API Error'`. -/
def errMessageOf (data : List (String × JSVal)) : String :=
  match jsGet data "message" with
  | .strV s => s
  | _ => "API Error"

/-- A successfully constructed `RestApiError`: it exposes `data` and
`httpCode` read-only, and (being an `Error`) carries a `message`. -/
structure RestApiErrorV where
  data : List (String × JSVal)
  httpCode : Int
  message : String

/-- The `RestApiError` constructor, `src/RestApiError.ts` lines 7-25.
An omitted `httpCode` argument defaults to `500`.  The source throws when
`typeof httpCode !== 'number' || !Number.isInteger(httpCode) ||
httpCode < 100 || httpCode > 599`; the branch below is its negation:
only a finite number with denominator 1 (i.e. an integer — `Number.isInteger`
is false on NaN, the infinities and fractional values) inside `[100, 599]`
passes.  The source interpolates the offending value into the message; the
model keeps the fixed prefix. -/
def mkRestApiError (data : List (String × JSVal)) (httpCodeArg : Option JSVal) :
    Except String RestApiErrorV :=
  let httpCode := httpCodeArg.getD (.numV (.finite 500))
  match httpCode with
  | .numV (.finite q) =>
      if q.den == 1 && decide ((100 : ℚ) ≤ q) && decide (q ≤ (599 : ℚ)) then
        .ok { data := data, httpCode := q.num, message := errMessageOf data }
      else
        .error "RestApiError: httpCode must be an integer between 100 and 599"
  | _ => .error "RestApiError: httpCode must be an integer between 100 and 599"

/-- C5: for every httpCode argument that is not an integer in [100,599]
(non-number, NaN, Infinity, fractional, below 100, above 599) construction
fails; for every integer in the closed range (boundaries included)
construction succeeds; an omitted httpCode defaults to 500; the constructed
value exposes its data and httpCode unchanged. -/
theorem restApiError_construction_c5 :
    (∀ (data : List (String × JSVal)) (q : ℚ),
        exOk (mkRestApiError data (some (.numV (.finite q)))) = true ↔
          (q.den = 1 ∧ 100 ≤ q ∧ q ≤ 599))
  ∧ (∀ (data : List (String × JSVal)) (v : JSVal),
        typeofVal v ≠ "number" → exOk (mkRestApiError data (some v)) = false)
  ∧ (∀ data : List (String × JSVal),
        exOk (mkRestApiError data (some (.numV .nan))) = false
      ∧ exOk (mkRestApiError data (some (.numV .posInf))) = false
      ∧ exOk (mkRestApiError data (some (.numV .negInf))) = false)
  ∧ (∀ (data : List (String × JSVal)) (n : Int), 100 ≤ n → n ≤ 599 →
        mkRestApiError data (some (.numV (.finite (n : ℚ)))) =
          .ok { data := data, httpCode := n, message := errMessageOf data })
  ∧ (∀ data : List (String × JSVal),
        mkRestApiError data none =
          .ok { data := data, httpCode := 500, message := errMessageOf data }) := by
  refine ⟨?_, ?_, ?_, ?_, ?_⟩
  · intro data q
    simp only [mkRestApiError, exOk]
    constructor
    · intro h
      by_cases hc : (q.den == 1 && decide ((100 : ℚ) ≤ q) && decide (q ≤ (599 : ℚ))) = true
      · simp only [beq_iff_eq, Bool.and_eq_true, decide_eq_true_eq] at hc
        exact ⟨hc.1.1, hc.1.2, hc.2⟩
      · simp [hc] at h
    · rintro ⟨h1, h2, h3⟩
      simp [h1, h2, h3]
  · intro data v hv
    cases v with
    | numV n => simp [typeofVal] at hv
    | undefV => simp [mkRestApiError, exOk]
    | null => simp [mkRestApiError, exOk]
    | boolV b => simp [mkRestApiError, exOk]
    | strV s => simp [mkRestApiError, exOk]
    | funcV i => simp [mkRestApiError, exOk]
    | extV i => simp [mkRestApiError, exOk]
    | arrV es => simp [mkRestApiError, exOk]
    | objV fs => simp [mkRestApiError, exOk]
  · intro data
    refine ⟨rfl, rfl, rfl⟩
  · intro data n h1 h2
    have hden : ((n : ℚ)).den = 1 := Rat.den_intCast n
    have hnum : ((n : ℚ)).num = n := Rat.num_intCast n
    have hle1 : (100 : ℚ) ≤ (n : ℚ) := by exact_mod_cast h1
    have hle2 : (n : ℚ) ≤ (599 : ℚ) := by exact_mod_cast h2
    simp [mkRestApiError, hden, hle1, hle2, hnum]
  · intro data
    rfl

/-- Concrete run of `restApiError_construction_c5`: code 404 is accepted and
the data and httpCode come through unchanged. -/
theorem restApiError_construction_c5_witness :
    mkRestApiError [("message", .strV "nf")] (some (.numV (.finite (404 : ℚ)))) =
      .ok { data := [("message", .strV "nf")], httpCode := 404, message := "nf" } := by
  have h := restApiError_construction_c5.2.2.2.1 [("message", .strV "nf")] 404
    (by norm_num) (by norm_num)
  simpa [errMessageOf, jsGet] using h

/-! ## Thrown values and the unified error renderer
(`ExpressRestApiBuilder.#handleError`) -/

/-- A value caught by a `catch` block: a `RestApiError`, some other `Error`
instance (carrying a `message`), or a non-`Error` value (`display` is what
`String(error)` yields on it). -/
inductive Thrown where
  | api (e : RestApiErrorV)
  | err (message : String)
  | raw (display : String)

/-- The JSON body the builder writes: the success envelope or the failure
envelope (`{success:false, error: <object>}`). -/
inductive ResponseBody where
  | success (result : JSVal)
  | failure (error : List (String × JSVal))

/-- A rendered HTTP response. -/
structure Response where
  status : Int
  body : ResponseBody

/-- Opaque rendering of the error data used in the source log line
`Request error: ${JSON.stringify(error.data)}`.  The claims only observe
whether the logger was called, never this text, so the serialization stays
shallow. -/
def stringifyData (data : List (String × JSVal)) : String :=
  "\x7b" ++ String.intercalate "," (data.map (fun p => p.1)) ++ "\x7d"

/-- `error instanceof Error ? error.message : String(error)`. -/
def thrownLogMessage : Thrown → String
  | .api e => e.message
  | .err m => m
  | .raw s => s

/-- `ExpressRestApiBuilder.#handleError` (lines 316-335).  Returns the
rendered response paired with the messages passed to the configured
logger at error level (empty when nothing is logged; when no logger is
configured the calls are no-ops, so the list is exactly the error-level
logging the caller observes). -/
def handleError (e : Thrown) : Response × List String :=
  match e with
  | .api err =>
      ({ status := err.httpCode, body := .failure err.data },
       if 500 ≤ err.httpCode then ["Request error: " ++ stringifyData err.data] else [])
  | .err m =>
      ({ status := 500, body := .failure [("message", .strV m)] },
       ["Request error: " ++ m])
  | .raw s =>
      ({ status := 500, body := .failure [("message", .strV "Internal server error")] },
       ["Request error: " ++ s])

/-- C3: a caught `RestApiError` renders its `httpCode` with body
`{success:false, error: <its data>}` and is logged exactly when
`httpCode ≥ 500`; any other caught value renders status 500 with message
`<its message, or "Internal server error" if it has none>` and is always
logged. -/
theorem error_rendering_c3 :
    (∀ e : RestApiErrorV,
        (handleError (.api e)).1 = { status := e.httpCode, body := .failure e.data }
      ∧ ((handleError (.api e)).2 ≠ [] ↔ 500 ≤ e.httpCode))
  ∧ (∀ m : String,
        handleError (.err m) =
          ({ status := 500, body := .failure [("message", .strV m)] },
           ["Request error: " ++ m]))
  ∧ (∀ s : String,
        (handleError (.raw s)).1 =
          { status := 500, body := .failure [("message", .strV "Internal server error")] }
      ∧ (handleError (.raw s)).2.length = 1) := by
  refine ⟨?_, ?_, ?_⟩
  · intro e
    refine ⟨rfl, ?_⟩
    by_cases h : 500 ≤ e.httpCode
    · simp [handleError, h]
    · simp [handleError, h]
  · intro m
    rfl
  · intro s
    exact ⟨rfl, rfl⟩

/-! ## Request context and the built-in input extraction
(`ExpressRestApiBuilder.#defaultExtractInput`) -/

/-- The parts of the Express `Request` object the builder reads.
`userAgent` stands for `request.headers['user-agent']` and `remoteAddress`
for `request.socket?.remoteAddress` (both `undefined` when absent);
`file` and `files` are whatever an upload middleware attached
(`undefined` when nothing did). -/
structure RequestV where
  query : List (String × JSVal)
  params : List (String × JSVal)
  body : List (String × JSVal)
  headers : List (String × JSVal)
  remoteAddress : JSVal
  file : JSVal
  files : JSVal

/-- The per-request `RequestContext` of `types.ts`: the request, the session
attached by session loading (`undefined` when none), and the WebSocket
handle (`undefined` on HTTP routes). -/
structure Context where
  request : RequestV
  session : JSVal
  ws : JSVal

/-- `ExpressRestApiBuilder.#defaultExtractInput` (lines 118-131): the object
literal `{...request.query, ...request.params, ...request.body, ws,
userAgent, clientIp, file, files}`.  Spread order makes a later binding
shadow an earlier one; reads go through `jsGet`. -/
def defaultExtractInput (ctx : Context) : List (String × JSVal) :=
  ctx.request.query ++ ctx.request.params ++ ctx.request.body ++
    [("ws", ctx.ws),
     ("userAgent", jsGet ctx.request.headers "user-agent"),
     ("clientIp", ctx.request.remoteAddress),
     ("file", ctx.request.file),
     ("files", ctx.request.files)]

lemma jsGet_append (a b : List (String × JSVal)) (k : String) :
    jsGet (a ++ b) k = if hasKey b k then jsGet b k else jsGet a k := by
  unfold jsGet hasKey
  rw [List.reverse_append, List.find?_append]
  cases hfind : b.reverse.find? (fun p => p.1 == k) with
  | some p =>
      have hmem := List.mem_of_find?_eq_some hfind
      have hp := List.find?_some hfind
      have : b.any (fun p => p.1 == k) = true := by
        rw [List.any_eq_true]
        exact ⟨p, List.mem_reverse.mp hmem, hp⟩
      simp [this, Option.orElse]
  | none =>
      have : b.any (fun p => p.1 == k) = false := by
        rw [List.find?_eq_none] at hfind
        rw [Bool.eq_false_iff]
        intro hany
        rw [List.any_eq_true] at hany
        obtain ⟨p, hmem, hp⟩ := hany
        exact absurd hp (by simpa using hfind p (List.mem_reverse.mpr hmem))
      simp [this, Option.orElse]

lemma hasKey_append (a b : List (String × JSVal)) (k : String) :
    hasKey (a ++ b) k = (hasKey a k || hasKey b k) := by
  simp [hasKey, List.any_append]

/-- C4: the built-in input extraction merges query, then path params, then
body (later overwrites earlier on key collision) and attaches `ws`,
`userAgent`, `clientIp`, `file` and `files` (the last two carrying whatever
the request holds, `undefined` when nothing was attached). -/
theorem default_extract_input_c4 :
    ∀ ctx : Context,
      (∀ k : String, k ∉ (["ws", "userAgent", "clientIp", "file", "files"] : List String) →
          jsGet (defaultExtractInput ctx) k =
            (if hasKey ctx.request.body k then jsGet ctx.request.body k
             else if hasKey ctx.request.params k then jsGet ctx.request.params k
             else jsGet ctx.request.query k))
    ∧ jsGet (defaultExtractInput ctx) "ws" = ctx.ws
    ∧ jsGet (defaultExtractInput ctx) "userAgent" = jsGet ctx.request.headers "user-agent"
    ∧ jsGet (defaultExtractInput ctx) "clientIp" = ctx.request.remoteAddress
    ∧ jsGet (defaultExtractInput ctx) "file" = ctx.request.file
    ∧ jsGet (defaultExtractInput ctx) "files" = ctx.request.files := by
  intro ctx
  have htail : ∀ v1 v2 v3 v4 v5 : JSVal, ∀ k : String,
      k ∉ (["ws", "userAgent", "clientIp", "file", "files"] : List String) →
      hasKey [("ws", v1), ("userAgent", v2), ("clientIp", v3), ("file", v4), ("files", v5)] k
        = false := by
    intro v1 v2 v3 v4 v5 k hk
    simp only [List.mem_cons, List.not_mem_nil, or_false, not_or] at hk
    obtain ⟨h1, h2, h3, h4, h5⟩ := hk
    simp [hasKey, Ne.symm h1, Ne.symm h2, Ne.symm h3, Ne.symm h4, Ne.symm h5]
  refine ⟨?_, ?_, ?_, ?_, ?_, ?_⟩
  · intro k hk
    unfold defaultExtractInput
    rw [jsGet_append, jsGet_append, jsGet_append, htail _ _ _ _ _ k hk]
    simp
  · unfold defaultExtractInput
    rw [jsGet_append, jsGet_append, jsGet_append]
    simp [hasKey, jsGet]
  · unfold defaultExtractInput
    rw [jsGet_append, jsGet_append, jsGet_append]
    simp [hasKey, jsGet]
  · unfold defaultExtractInput
    rw [jsGet_append, jsGet_append, jsGet_append]
    simp [hasKey, jsGet]
  · unfold defaultExtractInput
    rw [jsGet_append, jsGet_append, jsGet_append]
    simp [hasKey, jsGet]
  · unfold defaultExtractInput
    rw [jsGet_append, jsGet_append, jsGet_append]
    simp [hasKey, jsGet]

/-- Concrete run of `default_extract_input_c4`: a body field shadows a query
field of the same name. -/
theorem default_extract_input_c4_witness :
    jsGet (defaultExtractInput
      { request :=
          { query := [("id", .strV "fromQuery")]
            params := []
            body := [("id", .strV "fromBody")]
            headers := [("user-agent", .strV "jest")]
            remoteAddress := .strV "127.0.0.1"
            file := .undefV
            files := .undefV }
        session := .undefV
        ws := .undefV }) "id" = .strV "fromBody" := by
  have h := (default_extract_input_c4
      { request :=
          { query := [("id", .strV "fromQuery")]
            params := []
            body := [("id", .strV "fromBody")]
            headers := [("user-agent", .strV "jest")]
            remoteAddress := .strV "127.0.0.1"
            file := .undefV
            files := .undefV }
        session := .undefV
        ws := .undefV }).1 "id" (by decide)
  simpa [hasKey, jsGet] using h

/-! ## The dispatch strategies and `ExpressRestApiBuilder.#executeService` -/

/-- Result of invoking a user-supplied callback or handler: a value, or a
thrown/rejected value. -/
inductive Outcome (α : Type) where
  | ok (a : α)
  | threw (e : Thrown)

/-- The key/value mapping produced by input extraction. -/
abbrev InputV := List (String × JSVal)

/-- The `run` method of a constructed handler instance. -/
abbrev ServiceRun := InputV → Outcome JSVal

/-- Per-route options (`RouteOptions` in `types.ts`): pre-dispatch
middlewares and the four per-route strategy overrides.  Handler classes are
identified by `Nat` ids; the strategies receive the id and the context. -/
structure RouteOptionsV where
  middlewares : List Nat
  runService : Option (Nat → Context → Outcome JSVal)
  createService : Option (Nat → Context → Outcome ServiceRun)
  extractInput : Option (Context → Outcome InputV)
  mapError : Option (Thrown → Option RestApiErrorV)

/-- The strategy/callback part of `RestApiServerConfig`. -/
structure DispatchConfig where
  runService : Option (Nat → Context → Outcome JSVal)
  createService : Option (Nat → Context → Outcome ServiceRun)
  extractInput : Option (Context → Outcome InputV)
  mapError : Option (Thrown → Option RestApiErrorV)
  loadSession : Option (RequestV → Outcome JSVal)

/-- Which user-supplied callbacks a dispatch invoked. -/
structure Trace where
  loadSessionCalled : Bool
  runServiceCalled : Bool
  createServiceCalled : Bool
  extractInputCalled : Bool
  runCalled : Bool
  mapErrorCalled : Bool
deriving DecidableEq

/-- No callback invoked yet. -/
def emptyTrace : Trace :=
  { loadSessionCalled := false, runServiceCalled := false, createServiceCalled := false,
    extractInputCalled := false, runCalled := false, mapErrorCalled := false }

/-- Trace of the service-construction path: which of construction,
input-extraction, `run` and error-mapping have happened. -/
def csTrace (create extract ran mapped : Bool) : Trace :=
  { emptyTrace with createServiceCalled := create, extractInputCalled := extract, runCalled := ran, mapErrorCalled := mapped }

/-- Result of `#executeService`: the returned/thrown value plus the trace of
invoked callbacks. -/
structure ExecOut where
  result : Outcome JSVal
  trace : Trace

/-- The input-extraction resolution of `#executeService` line 298 applied to
a context: route override `??` global `??` `#defaultExtractInput`. -/
def resolvedExtract (options : Option RouteOptionsV) (cfg : DispatchConfig)
    (ctx : Context) : Outcome InputV :=
  match (options.bind fun o => o.extractInput) <|> cfg.extractInput with
  | some f => f ctx
  | none => .ok (defaultExtractInput ctx)

/-- `ExpressRestApiBuilder.#executeService` (lines 268-314), translated
clause by clause: resolve `runService` as route override `??` global and, if
present, return its result directly; otherwise resolve `createService` the
same way (the source asserts it non-null with `!` — the `none` branch mirrors
the `TypeError` JavaScript would raise and is unreachable for validated
configurations), construct the service, resolve `extractInput` as route `??`
global `??` built-in default, extract the input (outside the `try`), then
run the service inside the `try`; a rejection of `run` is offered to the
resolved `mapError` (route `??` global), which may replace it. -/
def executeService (cfg : DispatchConfig) (options : Option RouteOptionsV)
    (serviceClass : Nat) (ctx : Context) : ExecOut :=
  match (options.bind fun o => o.runService) <|> cfg.runService with
  | some f =>
      { result := f serviceClass ctx, trace := { emptyTrace with runServiceCalled := true } }
  | none =>
    match (options.bind fun o => o.createService) <|> cfg.createService with
    | none =>
        { result := .threw (.err "createService is not a function"), trace := emptyTrace }
    | some create =>
      match create serviceClass ctx with
      | .threw e =>
          { result := .threw e, trace := csTrace true false false false }
      | .ok run =>
        match resolvedExtract options cfg ctx with
        | .threw e =>
            { result := .threw e, trace := csTrace true true false false }
        | .ok input =>
          match run input with
          | .ok r =>
              { result := .ok r, trace := csTrace true true true false }
          | .threw e =>
            match (options.bind fun o => o.mapError) <|> cfg.mapError with
            | none =>
                { result := .threw e, trace := csTrace true true true false }
            | some m =>
              match m e with
              | some mapped =>
                  { result := .threw (.api mapped), trace := csTrace true true true true }
              | none =>
                  { result := .threw e, trace := csTrace true true true true }

/-- The four strategies once resolved. -/
structure ResolvedStrategies where
  runService : Option (Nat → Context → Outcome JSVal)
  createService : Option (Nat → Context → Outcome ServiceRun)
  extractInput : Context → Outcome InputV
  mapError : Option (Thrown → Option RestApiErrorV)

/-- Stated from the spec (§4.5): each of the four strategies is the
route-level override if present, else the global configuration value, else a
built-in default, which exists only for input-extraction. -/
def resolveStrategies (options : Option RouteOptionsV) (cfg : DispatchConfig) :
    ResolvedStrategies :=
  { runService := (options.bind fun o => o.runService) <|> cfg.runService
    createService := (options.bind fun o => o.createService) <|> cfg.createService
    extractInput := resolvedExtract options cfg
    mapError := (options.bind fun o => o.mapError) <|> cfg.mapError }

/-- The dispatch pipeline over already-resolved strategies: the reference
point the source is compared against in `dispatch_strategy_resolution_c1`. -/
def executeResolved (s : ResolvedStrategies) (serviceClass : Nat) (ctx : Context) : ExecOut :=
  match s.runService with
  | some f =>
      { result := f serviceClass ctx, trace := { emptyTrace with runServiceCalled := true } }
  | none =>
    match s.createService with
    | none =>
        { result := .threw (.err "createService is not a function"), trace := emptyTrace }
    | some create =>
      match create serviceClass ctx with
      | .threw e =>
          { result := .threw e, trace := csTrace true false false false }
      | .ok run =>
        match s.extractInput ctx with
        | .threw e =>
            { result := .threw e, trace := csTrace true true false false }
        | .ok input =>
          match run input with
          | .ok r =>
              { result := .ok r, trace := csTrace true true true false }
          | .threw e =>
            match s.mapError with
            | none =>
                { result := .threw e, trace := csTrace true true true false }
            | some m =>
              match m e with
              | some mapped =>
                  { result := .threw (.api mapped), trace := csTrace true true true true }
              | none =>
                  { result := .threw e, trace := csTrace true true true true }

/-- C1: `#executeService` resolves each of the four strategies as route-level
override, else global value, else built-in default (input-extraction only);
and when a full-execution strategy is resolved, it alone is invoked with
`(handlerClass, context)` and its result returned — the trace shows
service-construction, input-extraction and per-call error-mapping were never
invoked. -/
theorem dispatch_strategy_resolution_c1 :
    (∀ (cfg : DispatchConfig) (options : Option RouteOptionsV) (serviceClass : Nat)
        (ctx : Context),
        executeService cfg options serviceClass ctx =
          executeResolved (resolveStrategies options cfg) serviceClass ctx)
  ∧ (∀ (cfg : DispatchConfig) (options : Option RouteOptionsV) (serviceClass : Nat)
        (ctx : Context) (f : Nat → Context → Outcome JSVal),
        (resolveStrategies options cfg).runService = some f →
          executeService cfg options serviceClass ctx =
            { result := f serviceClass ctx,
              trace := { emptyTrace with runServiceCalled := true } }) := by
  constructor
  · intro cfg options serviceClass ctx
    rfl
  · intro cfg options serviceClass ctx f h
    have h' : ((options.bind fun o => o.runService) <|> cfg.runService) = some f := h
    unfold executeService
    rw [h']

/-- Concrete run of `dispatch_strategy_resolution_c1`: a route-level
full-execution override wins over the global one and runs alone. -/
theorem dispatch_strategy_resolution_c1_witness :
    executeService
      { runService := some fun _ _ => .ok (.strV "global")
        createService := some fun _ _ => .ok fun _ => .ok (.strV "constructed")
        extractInput := none, mapError := none, loadSession := none }
      (some { middlewares := [], runService := some fun _ _ => .ok (.strV "route")
              createService := none, extractInput := none, mapError := none })
      0
      { request := { query := [], params := [], body := [], headers := [],
                     remoteAddress := .undefV, file := .undefV, files := .undefV }
        session := .undefV, ws := .undefV } =
      { result := .ok (.strV "route"),
        trace := { emptyTrace with runServiceCalled := true } } := by
  exact dispatch_strategy_resolution_c1.2 _ _ 0 _ (fun _ _ => .ok (.strV "route")) rfl

/-! ## Route handlers, the session guard and WebSocket registration
(`#addRoutesToRouter`, `#registerRoutes`, `#registerWebSocketRoute`) -/

/-- Outcome of an HTTP dispatch: the rendered response, the error-level log
calls, and the trace of invoked callbacks. -/
structure HttpOut where
  response : Response
  logs : List String
  trace : Trace

/-- Packs a `handleError` result with a trace. -/
def renderedOut (pair : Response × List String) (tr : Trace) : HttpOut :=
  { response := pair.1, logs := pair.2, trace := tr }

/-- The per-route `routeHandler` closure of `#addRoutesToRouter`
(lines 205-218): run `#executeService` with the session found on the
request; on success respond `{success:true, result}` (status 200); on throw
render through `#handleError`. -/
def routeHandler (cfg : DispatchConfig) (options : Option RouteOptionsV)
    (serviceClass : Nat) (req : RequestV) (session : JSVal) : HttpOut :=
  match (executeService cfg options serviceClass { request := req, session := session, ws := .undefV }).result with
  | .ok r =>
      { response := { status := 200, body := .success r }, logs := [],
        trace := (executeService cfg options serviceClass { request := req, session := session, ws := .undefV }).trace }
  | .threw e =>
      renderedOut (handleError e)
        (executeService cfg options serviceClass { request := req, session := session, ws := .undefV }).trace

/-- Trace of the authenticated-group session guard failure path. -/
def guardTrace (mapCalled : Bool) : Trace :=
  { emptyTrace with loadSessionCalled := true, mapErrorCalled := mapCalled }

/-- An authenticated-group HTTP request (`#registerRoutes` lines 166-183):
the router-level guard runs the configured session loader, attaches its
result to the request, and on throw consults the global `mapError` and
renders through `#handleError` — the route handler never runs. -/
def handleAuthenticatedHttp (cfg : DispatchConfig) (options : Option RouteOptionsV)
    (serviceClass : Nat) (req : RequestV) : HttpOut :=
  match cfg.loadSession with
  | none => routeHandler cfg options serviceClass req .undefV
  | some ls =>
    match ls req with
    | .ok s =>
        let out := routeHandler cfg options serviceClass req s
        { out with trace := { out.trace with loadSessionCalled := true } }
    | .threw e =>
        match cfg.mapError with
        | some m =>
            match m e with
            | some mapped => renderedOut (handleError (.api mapped)) (guardTrace true)
            | none => renderedOut (handleError e) (guardTrace true)
        | none => renderedOut (handleError e) (guardTrace false)

/-- An unauthenticated-group HTTP request: no guard middleware is mounted,
so the route handler runs with no session on the request. -/
def handleUnauthenticatedHttp (cfg : DispatchConfig) (options : Option RouteOptionsV)
    (serviceClass : Nat) (req : RequestV) : HttpOut :=
  routeHandler cfg options serviceClass req .undefV  -- no session was attached

/-- Outcome of a WebSocket connection attempt: whether `ws.close()` was
called, the error-level log calls, and the trace.  The source transmits
nothing on the error path — it only closes and (sometimes) logs, which is
why no sent frame appears here. -/
structure WsOut where
  closed : Bool
  logs : List String
  trace : Trace

/-- The log line of `#registerWebSocketRoute` line 256. -/
def wsErrorMessage (path : String) (e : Thrown) : String :=
  "WebSocket service error at " ++ path ++ ": " ++ thrownLogMessage e

/-- The `catch` block of `#registerWebSocketRoute` (lines 247-258): consult
the global `mapError`; when it maps the error, close at once (returning
before the log line runs); otherwise log the error message and close. -/
def wsCatch (cfg : DispatchConfig) (path : String) (e : Thrown) (tr : Trace) : WsOut :=
  match cfg.mapError with
  | some m =>
      match m e with
      | some _ => { closed := true, logs := [], trace := { tr with mapErrorCalled := true } }
      | none =>
          { closed := true, logs := [wsErrorMessage path e],
            trace := { tr with mapErrorCalled := true } }
  | none => { closed := true, logs := [wsErrorMessage path e], trace := tr }

/-- Lines 235-239 of `#registerWebSocketRoute`: `if (loadSession)` run it —
for every WS route, with no distinction between the authenticated and
unauthenticated groups.  Returns the session outcome and whether the loader
was invoked. -/
def wsSessionStep (cfg : DispatchConfig) (req : RequestV) : Outcome JSVal × Bool :=
  match cfg.loadSession with
  | none => (.ok .undefV, false)
  | some ls => (ls req, true)

/-- Merges the session-loader invocation flag into an execution trace. -/
def wsTrace (tr : Trace) (called : Bool) : Trace :=
  { tr with loadSessionCalled := called }

/-- The `app.ws` connection handler of `#registerWebSocketRoute`
(lines 233-259): session step, then `#executeService` with the connection
handle in the context and no per-route options; failures of either step go
through the shared `catch`. -/
def handleWsRequest (cfg : DispatchConfig) (serviceClass : Nat) (path : String)
    (req : RequestV) (wsId : Nat) : WsOut :=
  match wsSessionStep cfg req with
  | (.threw e, called) => wsCatch cfg path e (wsTrace emptyTrace called)
  | (.ok s, called) =>
      match (executeService cfg none serviceClass { request := req, session := s, ws := .extV wsId }).result with
      | .ok _ =>
          { closed := false, logs := [],
            trace := wsTrace (executeService cfg none serviceClass { request := req, session := s, ws := .extV wsId }).trace called }
      | .threw e =>
          wsCatch cfg path e
            (wsTrace (executeService cfg none serviceClass { request := req, session := s, ws := .extV wsId }).trace called)

/-- Which declaration list a route came from. -/
inductive RouteGroup where
  | authenticated
  | unauthenticated
deriving DecidableEq

/-- Outcome of dispatching one inbound request/connection. -/
inductive ReqOut where
  | http (o : HttpOut)
  | ws (o : WsOut)

/-- The trace of a dispatch outcome. -/
def traceOf : ReqOut → Trace
  | .http o => o.trace
  | .ws o => o.trace

/-- Mirrors `#registerRoutes` and `#addRoutesToRouter`: HTTP routes of the
authenticated group sit behind the session guard, unauthenticated HTTP
routes do not, and `WS` routes are handed to `#registerWebSocketRoute` for
both groups alike — that registration receives only `[method, path,
ServiceClass]` and carries no group information. -/
def dispatchRequest (cfg : DispatchConfig) (group : RouteGroup) (method : String)
    (options : Option RouteOptionsV) (serviceClass : Nat) (path : String)
    (req : RequestV) (wsId : Nat) : ReqOut :=
  if method == "WS" then
    .ws (handleWsRequest cfg serviceClass path req wsId)
  else
    match group with
    | .authenticated => .http (handleAuthenticatedHttp cfg options serviceClass req)
    | .unauthenticated => .http (handleUnauthenticatedHttp cfg options serviceClass req)

/-- An empty request, used by the concrete runs below. -/
def emptyReq : RequestV :=
  { query := [], params := [], body := [], headers := [],
    remoteAddress := .undefV, file := .undefV, files := .undefV }

/-- C2 (failing input): the configuration of the repository test
`should NOT call loadSession for unauthenticated WebSocket routes`
(`tests/websocket.test.ts`) — a session loader, a `createService`, and one
unauthenticated `WS` route.  Dispatching a connection to that route invokes
the session loader: `#registerWebSocketRoute` runs `config.loadSession`
whenever it is configured, with no group distinction, so the claim (and the
quoted test, which asserts `loadSession` was not called) fails on the code. -/
theorem unauthenticated_ws_invokes_loadSession_c2 :
    (traceOf (dispatchRequest
      { runService := none
        createService := some fun _ _ => .ok fun _ => .ok (.strV "public")
        extractInput := none, mapError := none
        loadSession := some fun _ => .ok (.objV [("userId", .numV (.finite 42))]) }
      .unauthenticated "WS" none 0 "/api/public/ws/public" emptyReq 7)).loadSessionCalled
      = true := rfl

/-- C9 (counterexample): a WS route whose session loader throws a
`RestApiError` while the global `mapError` maps it (the configuration of the
repository test `should close WebSocket on RestApiError in loadSession`).
The connection is closed but nothing is logged — the mapped branch of the
`catch` returns before the log line — so the claim, which states the error
is logged (message only) on every WS failure, is false here. -/
theorem ws_mapped_error_not_logged_c9_counterexample :
    (handleWsRequest
      { runService := none
        createService := some fun _ _ => .ok fun _ => .ok .undefV
        extractInput := none
        mapError := some fun e => match e with | .api a => some a | _ => none
        loadSession := some fun _ =>
          .threw (.api { data := [("message", .strV "Unauthorized")], httpCode := 401,
                         message := "Unauthorized" }) }
      0 "/api/ws/protected" emptyReq 3).closed = true
  ∧ (handleWsRequest
      { runService := none
        createService := some fun _ _ => .ok fun _ => .ok .undefV
        extractInput := none
        mapError := some fun e => match e with | .api a => some a | _ => none
        loadSession := some fun _ =>
          .threw (.api { data := [("message", .strV "Unauthorized")], httpCode := 401,
                         message := "Unauthorized" }) }
      0 "/api/ws/protected" emptyReq 3).logs = [] := ⟨rfl, rfl⟩

/-- C9 (amended): when session loading or execution of a WS route fails, the
connection is closed (never an HTTP response); the global error-mapping
strategy, when configured, is always consulted; when it maps the error the
close happens with no log and nothing transmitted, and otherwise the error
message (only) is logged once and the connection closed. -/
theorem ws_error_path_c9_amended :
    (∀ (cfg : DispatchConfig) (path : String) (e : Thrown) (tr : Trace),
        (wsCatch cfg path e tr).closed = true
      ∧ (cfg.mapError = none → (wsCatch cfg path e tr).logs = [wsErrorMessage path e])
      ∧ (∀ m, cfg.mapError = some m →
            (wsCatch cfg path e tr).trace.mapErrorCalled = true
          ∧ ((m e).isSome = true → (wsCatch cfg path e tr).logs = [])
          ∧ (m e = none → (wsCatch cfg path e tr).logs = [wsErrorMessage path e])))
  ∧ (∀ (cfg : DispatchConfig) (serviceClass : Nat) (path : String) (req : RequestV)
        (wsId : Nat) (e : Thrown),
        wsSessionStep cfg req = (.threw e, true) →
          handleWsRequest cfg serviceClass path req wsId =
            wsCatch cfg path e (wsTrace emptyTrace true))
  ∧ (∀ (cfg : DispatchConfig) (serviceClass : Nat) (path : String) (req : RequestV)
        (wsId : Nat) (s : JSVal) (called : Bool) (e : Thrown),
        wsSessionStep cfg req = (.ok s, called) →
        (executeService cfg none serviceClass { request := req, session := s, ws := .extV wsId }).result = .threw e →
          handleWsRequest cfg serviceClass path req wsId =
            wsCatch cfg path e
              (wsTrace (executeService cfg none serviceClass { request := req, session := s, ws := .extV wsId }).trace called)) := by
  refine ⟨?_, ?_, ?_⟩
  · intro cfg path e tr
    refine ⟨?_, ?_, ?_⟩
    · rcases hc : cfg.mapError with _ | m
      · simp [wsCatch, hc]
      · rcases hme : m e with _ | a
        · simp [wsCatch, hc, hme]
        · simp [wsCatch, hc, hme]
    · intro h
      simp [wsCatch, h]
    · intro m h
      refine ⟨?_, ?_, ?_⟩
      · rcases hme : m e with _ | a <;> simp [wsCatch, h, hme]
      · intro hs
        rcases hme : m e with _ | a
        · rw [hme] at hs
          simp at hs
        · simp [wsCatch, h, hme]
      · intro hn
        simp [wsCatch, h, hn]
  · intro cfg serviceClass path req wsId e h
    simp [handleWsRequest, h]
  · intro cfg serviceClass path req wsId s called e h1 h2
    simp [handleWsRequest, h1, h2]

/-- Concrete run of `ws_error_path_c9_amended`: an unmapped execution error
is logged once with the route path and the connection closed. -/
theorem ws_error_path_c9_amended_witness :
    handleWsRequest
      { runService := some fun _ _ => .threw (.err "boom")
        createService := none, extractInput := none, mapError := none
        loadSession := none }
      0 "/api/ws/echo" emptyReq 1 =
      wsCatch
        { runService := some fun _ _ => .threw (.err "boom")
          createService := none, extractInput := none, mapError := none
          loadSession := none }
        "/api/ws/echo" (.err "boom") (wsTrace { emptyTrace with runServiceCalled := true } false) := by
  exact ws_error_path_c9_amended.2.2
    { runService := some fun _ _ => .threw (.err "boom")
      createService := none, extractInput := none, mapError := none
      loadSession := none }
    0 "/api/ws/echo" emptyReq 1 .undefV false (.err "boom") rfl rfl

/-- C10 (counterexample): global `createService` throws a `RestApiError`
with code 404; a global `mapError` is configured.  The response carries
status 404 with the Error Value data, nothing is logged and `mapError` is
never consulted — so the thrown value is not rendered as an unclassified
failure (which would be status 500, always logged), refuting that part of
the claim. -/
theorem create_service_throw_rendering_c10_counterexample :
    (handleUnauthenticatedHttp
      { runService := none
        createService := some fun _ _ =>
          .threw (.api { data := [("message", .strV "nope")], httpCode := 404, message := "nope" })
        extractInput := none
        mapError := some fun _ =>
          some { data := [("message", .strV "mapped")], httpCode := 500, message := "mapped" }
        loadSession := none }
      none 0 emptyReq).response.status = 404
  ∧ (handleUnauthenticatedHttp
      { runService := none
        createService := some fun _ _ =>
          .threw (.api { data := [("message", .strV "nope")], httpCode := 404, message := "nope" })
        extractInput := none
        mapError := some fun _ =>
          some { data := [("message", .strV "mapped")], httpCode := 500, message := "mapped" }
        loadSession := none }
      none 0 emptyReq).logs = []
  ∧ (handleUnauthenticatedHttp
      { runService := none
        createService := some fun _ _ =>
          .threw (.api { data := [("message", .strV "nope")], httpCode := 404, message := "nope" })
        extractInput := none
        mapError := some fun _ =>
          some { data := [("message", .strV "mapped")], httpCode := 500, message := "mapped" }
        loadSession := none }
      none 0 emptyReq).trace.mapErrorCalled = false := ⟨rfl, rfl, rfl⟩

/-- C10 (amended): in the service-construction path the resolved `mapError`
is consulted exactly for rejections of `run(input)`; a value thrown by the
service-construction or input-extraction callback bypasses error mapping
entirely and is rendered directly by the unified error renderer, which
classifies it like any caught value (an Error Value with its own httpCode,
anything else as an unclassified 500). -/
theorem create_service_error_scope_c10_amended :
    (∀ (cfg : DispatchConfig) (options : Option RouteOptionsV) (serviceClass : Nat)
        (ctx : Context) (create : Nat → Context → Outcome ServiceRun) (e : Thrown),
        ((options.bind fun o => o.runService) <|> cfg.runService) = none →
        ((options.bind fun o => o.createService) <|> cfg.createService) = some create →
        create serviceClass ctx = .threw e →
          executeService cfg options serviceClass ctx =
            { result := .threw e, trace := csTrace true false false false })
  ∧ (∀ (cfg : DispatchConfig) (options : Option RouteOptionsV) (serviceClass : Nat)
        (ctx : Context) (create : Nat → Context → Outcome ServiceRun) (run : ServiceRun)
        (e : Thrown),
        ((options.bind fun o => o.runService) <|> cfg.runService) = none →
        ((options.bind fun o => o.createService) <|> cfg.createService) = some create →
        create serviceClass ctx = .ok run →
        resolvedExtract options cfg ctx = .threw e →
          executeService cfg options serviceClass ctx =
            { result := .threw e, trace := csTrace true true false false })
  ∧ (∀ (cfg : DispatchConfig) (options : Option RouteOptionsV) (serviceClass : Nat)
        (ctx : Context) (create : Nat → Context → Outcome ServiceRun) (run : ServiceRun)
        (input : InputV) (e : Thrown) (m : Thrown → Option RestApiErrorV),
        ((options.bind fun o => o.runService) <|> cfg.runService) = none →
        ((options.bind fun o => o.createService) <|> cfg.createService) = some create →
        create serviceClass ctx = .ok run →
        resolvedExtract options cfg ctx = .ok input →
        run input = .threw e →
        ((options.bind fun o => o.mapError) <|> cfg.mapError) = some m →
          executeService cfg options serviceClass ctx =
            { result := .threw (match m e with | some mapped => Thrown.api mapped | none => e),
              trace := csTrace true true true true })
  ∧ (∀ (cfg : DispatchConfig) (options : Option RouteOptionsV) (serviceClass : Nat)
        (req : RequestV) (session : JSVal) (e : Thrown),
        (executeService cfg options serviceClass { request := req, session := session, ws := .undefV }).result = .threw e →
          routeHandler cfg options serviceClass req session =
            renderedOut (handleError e)
              (executeService cfg options serviceClass { request := req, session := session, ws := .undefV }).trace) := by
  refine ⟨?_, ?_, ?_, ?_⟩
  · intro cfg options serviceClass ctx create e h1 h2 h3
    simp [executeService, h1, h2, h3]
  · intro cfg options serviceClass ctx create run e h1 h2 h3 h4
    simp [executeService, h1, h2, h3, h4]
  · intro cfg options serviceClass ctx create run input e m h1 h2 h3 h4 h5 h6
    rcases hme : m e with _ | mapped
    · simp [executeService, h1, h2, h3, h4, h5, h6, hme]
    · simp [executeService, h1, h2, h3, h4, h5, h6, hme]
  · intro cfg options serviceClass req session e h
    simp [routeHandler, h]

/-- Concrete run of `create_service_error_scope_c10_amended`: a plain
`Error` thrown by `createService` comes out unmapped with only the
construction step in the trace. -/
theorem create_service_error_scope_c10_amended_witness :
    executeService
      { runService := none
        createService := some fun _ _ => .threw (.err "ctor failed")
        extractInput := none
        mapError := some fun _ =>
          some { data := [("message", .strV "mapped")], httpCode := 500, message := "mapped" }
        loadSession := none }
      none 0
      { request := emptyReq, session := .undefV, ws := .undefV } =
      { result := .threw (.err "ctor failed"), trace := csTrace true false false false } := by
  exact create_service_error_scope_c10_amended.1 _ none 0
    { request := emptyReq, session := .undefV, ws := .undefV }
    (fun _ _ => .threw (.err "ctor failed")) (.err "ctor failed") rfl rfl rfl

/-! ## Route and configuration validation
(`#validateConfig`, `#validateFunction`, `#validateRoutes`) -/

/-- `ExpressRestApiBuilder.#VALID_HTTP_METHODS`. -/
def VALID_HTTP_METHODS : List String := ["GET", "POST", "PUT", "DELETE", "PATCH", "WS"]

/-- Sequencing of two validation steps: the first error wins
(the imperative source throws at the first failed check). -/
def exAndThen (a b : Except String Unit) : Except String Unit :=
  match a with
  | .ok _ => b
  | .error e => .error e

/-- `#validateFunction` (lines 58-62): accept `undefined` or a function,
reject anything else. -/
def validateFunctionV (value : JSVal) (name : String) : Except String Unit :=
  match value with
  | .undefV => .ok ()
  | v =>
      if typeofVal v != "function" then
        .error (name ++ " must be a function, got " ++ typeofVal v)
      else .ok ()

/-- `arrayName[i]`, the prefix of every route validation message. -/
def routePrefix (arrayName : String) (i : Nat) : String :=
  arrayName ++ "[" ++ toString i ++ "]"

/-- Lines 68-72: `!Array.isArray(route) || route.length < 3 ||
route.length > 4` rejects the entry; otherwise validation continues on the
elements. -/
def checkRouteShape (arrayName : String) (i : Nat) (route : JSVal) :
    Except String (List JSVal) :=
  match route with
  | .arrV elems =>
      if elems.length < 3 ∨ elems.length > 4 then
        .error (routePrefix arrayName i ++
          ": Route must be [method, path, ServiceClass] or [method, path, ServiceClass, options]")
      else .ok elems
  | _ =>
      .error (routePrefix arrayName i ++
        ": Route must be [method, path, ServiceClass] or [method, path, ServiceClass, options]")

/-- The negation of the method rejection of lines 77-85:
`typeof method === 'string' && VALID_HTTP_METHODS.includes(method)`
(case-sensitive exact membership). -/
def methodOk (v : JSVal) : Bool :=
  match v with
  | .strV m => VALID_HTTP_METHODS.contains m
  | _ => false

/-- JavaScript `s.startsWith(p)`: the characters of `p` are a prefix of the
characters of `s`. -/
def strStartsWith (s p : String) : Bool :=
  p.toList.isPrefixOf s.toList

/-- The negation of the path rejection of lines 88-92:
`typeof path === 'string' && path.startsWith('/')`. -/
def pathOk (v : JSVal) : Bool :=
  match v with
  | .strV p => strStartsWith p "/"
  | _ => false

/-- `typeof v === 'function'` (line 95). -/
def callableOk (v : JSVal) : Bool :=
  match v with
  | .funcV _ => true
  | _ => false

/-- `v === undefined || typeof v === 'function'` — what `#validateFunction`
accepts. -/
def optCallable (v : JSVal) : Bool :=
  match v with
  | .undefV => true
  | .funcV _ => true
  | _ => false

/-- `v === undefined || Array.isArray(v)` (line 106). -/
def optArray (v : JSVal) : Bool :=
  match v with
  | .undefV => true
  | .arrV _ => true
  | _ => false

/-- Line 77-85 as a check. -/
def checkMethod (arrayName : String) (i : Nat) (v : JSVal) : Except String Unit :=
  if methodOk v then .ok ()
  else .error (routePrefix arrayName i ++ ": Invalid HTTP method")

/-- Line 88-92 as a check. -/
def checkPath (arrayName : String) (i : Nat) (v : JSVal) : Except String Unit :=
  if pathOk v then .ok ()
  else .error (routePrefix arrayName i ++ ": Path must be a string starting with /")

/-- Line 95-99 as a check. -/
def checkServiceClass (arrayName : String) (i : Nat) (v : JSVal) : Except String Unit :=
  if callableOk v then .ok ()
  else .error (routePrefix arrayName i ++
    ": ServiceClass must be a class/constructor function, got " ++ typeofVal v)

/-- Lines 102-114: when a 4th element is present it must satisfy
`typeof options === 'object' && options !== null` (note: arrays pass this
test), its `middlewares` (if present) must be an array, and its four
strategy overrides (if present) must be functions. -/
def checkOptions (arrayName : String) (i : Nat) (v : JSVal) : Except String Unit :=
  match v with
  | .undefV => .ok ()
  | .null => .error (routePrefix arrayName i ++ ": Route options must be an object")
  | o =>
      if typeofVal o != "object" then
        .error (routePrefix arrayName i ++ ": Route options must be an object")
      else if !(optArray (getProp o "middlewares")) then
        .error (routePrefix arrayName i ++ ": options.middlewares must be an array")
      else
        exAndThen (validateFunctionV (getProp o "runService")
            (routePrefix arrayName i ++ ".options.runService"))
          (exAndThen (validateFunctionV (getProp o "createService")
              (routePrefix arrayName i ++ ".options.createService"))
            (exAndThen (validateFunctionV (getProp o "mapError")
                (routePrefix arrayName i ++ ".options.mapError"))
              (validateFunctionV (getProp o "extractInput")
                (routePrefix arrayName i ++ ".options.extractInput"))))

/-- The body of the `#validateRoutes` loop (lines 65-115) for one entry. -/
def validateRouteEntry (arrayName : String) (i : Nat) (route : JSVal) :
    Except String Unit :=
  match checkRouteShape arrayName i route with
  | .error e => .error e
  | .ok elems =>
      exAndThen (checkMethod arrayName i (elems.getD 0 .undefV))
        (exAndThen (checkPath arrayName i (elems.getD 1 .undefV))
          (exAndThen (checkServiceClass arrayName i (elems.getD 2 .undefV))
            (checkOptions arrayName i (elems.getD 3 .undefV))))

/-- The `#validateRoutes` loop from index `i`. -/
def validateRoutesFrom (routes : List JSVal) (arrayName : String) (i : Nat) :
    Except String Unit :=
  match routes with
  | [] => .ok ()
  | r :: rest =>
      exAndThen (validateRouteEntry arrayName i r)
        (validateRoutesFrom rest arrayName (i + 1))

/-- `#validateRoutes` (lines 64-116). -/
def validateRoutesV (routes : List JSVal) (arrayName : String) : Except String Unit :=
  validateRoutesFrom routes arrayName 0

/-- The full `RestApiServerConfig`: the dispatch callbacks plus base paths
and the two route declaration lists.  The route lists are kept untyped
(`JSVal`) because `#validateRoutes` deliberately treats them as `unknown[]`;
the callback fields are function-typed in `types.ts`, so the
`#validateFunction` guards on them cannot fail and stay out of the model. -/
structure BuilderConfig extends DispatchConfig where
  apiBaseUrl : Option String
  unauthenticatedApiBaseUrl : Option String
  services : Option (List JSVal)
  unauthenticatedServices : Option (List JSVal)

/-- `config.services && config.services.length > 0` (line 38): in
JavaScript an empty array is truthy, so only the length test matters. -/
def servicesNonempty (config : BuilderConfig) : Bool :=
  match config.services with
  | some l => decide (l.length > 0)
  | none => false

/-- `if (config.services) this.#validateRoutes(config.services, name)`. -/
def validateOptRoutes (routes : Option (List JSVal)) (arrayName : String) :
    Except String Unit :=
  match routes with
  | some rs => validateRoutesV rs arrayName
  | none => .ok ()

/-- `ExpressRestApiBuilder.#validateConfig` (lines 33-56): the two
configuration guards in source order, then the two route-list walks. -/
def validateConfigV (config : BuilderConfig) : Except String Unit :=
  if config.runService.isNone && config.createService.isNone then
    .error ("Either runService or createService is required")
  else if servicesNonempty config && config.loadSession.isNone then
    .error ("loadSession is required when services are defined")
  else
    exAndThen (validateOptRoutes config.services "services")
      (validateOptRoutes config.unauthenticatedServices "unauthenticatedServices")

/-! ## Builder lifecycle (`constructor`, `build`, `#registerRoutes`) -/

/-- A router mounted on the application with its routes. -/
structure MountedRoutes where
  basePath : String
  routes : List JSVal
  hasSessionGuard : Bool

/-- The observable application state the builder writes. -/
structure AppState where
  unauthenticatedRouter : Option MountedRoutes
  authenticatedRouter : Option MountedRoutes
  errorHandlerInstalled : Bool

/-- Builder instance state: the stored configuration, the `#built` flag and
the application. -/
structure BuilderState where
  config : BuilderConfig
  built : Bool
  app : AppState

/-- The state right after the constructor ran: config stored unchanged,
`#built = false`, nothing registered yet. -/
def initialState (config : BuilderConfig) : BuilderState :=
  { config := config, built := false,
    app := { unauthenticatedRouter := none, authenticatedRouter := none,
             errorHandlerInstalled := false } }

/-- The constructor (lines 21-29): validate eagerly, then store the
configuration. -/
def constructBuilder (config : BuilderConfig) : Except String BuilderState :=
  match validateConfigV config with
  | .error e => .error e
  | .ok _ => .ok (initialState config)

/-- JavaScript `a || d` on an optional string: the empty string is falsy. -/
def jsOrDefault (v : Option String) (d : String) : String :=
  match v with
  | some s => if s = "" then d else s
  | none => d

/-- `#registerRoutes` (lines 148-194): mount the unauthenticated router
(no guard), then the authenticated router (session guard), each only when
its route list is non-empty; base paths default to `/api` and
`apiBaseUrl + "/public"`. -/
def registerRoutesV (config : BuilderConfig) :
    Option MountedRoutes × Option MountedRoutes :=
  let apiBaseUrl := jsOrDefault config.apiBaseUrl "/api"
  let unauthenticatedApiBaseUrl :=
    config.unauthenticatedApiBaseUrl.getD (apiBaseUrl ++ "/public")
  (match config.unauthenticatedServices with
   | some routes =>
       if routes.length > 0 then
         some { basePath := unauthenticatedApiBaseUrl, routes := routes,
                hasSessionGuard := false }
       else none
   | none => none,
   match config.services with
   | some routes =>
       if routes.length > 0 then
         some { basePath := apiBaseUrl, routes := routes, hasSessionGuard := true }
       else none
   | none => none)

/-- The application after a successful `build()`: all declared routes
registered and the terminal error handler installed. -/
def builtApp (config : BuilderConfig) : AppState :=
  { unauthenticatedRouter := (registerRoutesV config).1
    authenticatedRouter := (registerRoutesV config).2
    errorHandlerInstalled := true }

/-- `build()` (lines 139-146): throw if `#built` is already set, otherwise
set it, register the routes and install the terminal error handler. -/
def buildV (st : BuilderState) : Except String BuilderState :=
  if st.built then .error ("build() can only be called once")
  else .ok { st with built := true, app := builtApp st.config }

lemma exOk_andThen (a b : Except String Unit) :
    exOk (exAndThen a b) = (exOk a && exOk b) := by
  cases a with
  | ok v => simp [exAndThen, exOk]
  | error e => simp [exAndThen, exOk]

lemma validateFunctionV_isOk (v : JSVal) (name : String) :
    exOk (validateFunctionV v name) = optCallable v := by
  cases v <;> rfl

lemma checkMethod_isOk (n : String) (i : Nat) (v : JSVal) :
    exOk (checkMethod n i v) = methodOk v := by
  by_cases h : methodOk v = true
  · simp [checkMethod, h, exOk]
  · rw [Bool.not_eq_true] at h
    simp [checkMethod, h, exOk]

lemma checkPath_isOk (n : String) (i : Nat) (v : JSVal) :
    exOk (checkPath n i v) = pathOk v := by
  by_cases h : pathOk v = true
  · simp [checkPath, h, exOk]
  · rw [Bool.not_eq_true] at h
    simp [checkPath, h, exOk]

lemma checkServiceClass_isOk (n : String) (i : Nat) (v : JSVal) :
    exOk (checkServiceClass n i v) = callableOk v := by
  by_cases h : callableOk v = true
  · simp [checkServiceClass, h, exOk]
  · rw [Bool.not_eq_true] at h
    simp [checkServiceClass, h, exOk]

/-- What the 4th element of a route tuple must satisfy according to the
code: absent, or a non-null value of `typeof` "object" whose `middlewares`
is absent-or-array and whose four strategy overrides are
absent-or-functions. -/
def optionsOkCode (v : JSVal) : Bool :=
  match v with
  | .undefV => true
  | .null => false
  | o =>
      typeofVal o == "object" && optArray (getProp o "middlewares") &&
      optCallable (getProp o "runService") && optCallable (getProp o "createService") &&
      optCallable (getProp o "mapError") && optCallable (getProp o "extractInput")

lemma checkOptions_isOk (n : String) (i : Nat) (v : JSVal) :
    exOk (checkOptions n i v) = optionsOkCode v := by
  cases v with
  | undefV => rfl
  | null => rfl
  | boolV b => rfl
  | numV q => rfl
  | strV s => rfl
  | funcV j => rfl
  | extV j => rfl
  | arrV es => rfl
  | objV fields =>
      by_cases hm : optArray (getProp (.objV fields) "middlewares") = true
      · simp [checkOptions, typeofVal, hm, exOk_andThen, validateFunctionV_isOk,
              optionsOkCode, Bool.and_assoc]
      · rw [Bool.not_eq_true] at hm
        simp [checkOptions, typeofVal, hm, exOk, optionsOkCode]

/-- What a route entry must satisfy according to the code: an array of 3 or
4 elements whose method is an exact member of the enumerated set, whose
path is a string starting with "/", whose third element is callable, and
whose 4th element satisfies `optionsOkCode`. -/
def codeRouteEntryOk (route : JSVal) : Bool :=
  match route with
  | .arrV elems =>
      decide (3 ≤ elems.length ∧ elems.length ≤ 4) &&
      methodOk (elems.getD 0 .undefV) && pathOk (elems.getD 1 .undefV) &&
      callableOk (elems.getD 2 .undefV) && optionsOkCode (elems.getD 3 .undefV)
  | _ => false

lemma validateRouteEntry_isOk (n : String) (i : Nat) (route : JSVal) :
    exOk (validateRouteEntry n i route) = codeRouteEntryOk route := by
  cases route with
  | arrV elems =>
      by_cases hlen : elems.length < 3 ∨ elems.length > 4
      · have hlen' : ¬(3 ≤ elems.length ∧ elems.length ≤ 4) := by omega
        simp [validateRouteEntry, checkRouteShape, hlen, codeRouteEntryOk, hlen', exOk]
      · have hlen' : 3 ≤ elems.length ∧ elems.length ≤ 4 := by
          rcases Nat.lt_or_ge elems.length 3 with h | h
          · exact absurd (Or.inl h) hlen
          · refine ⟨h, ?_⟩
            rcases Nat.lt_or_ge 4 elems.length with h2 | h2
            · exact absurd (Or.inr h2) hlen
            · exact h2
        simp [validateRouteEntry, checkRouteShape, hlen, codeRouteEntryOk, hlen',
              exOk_andThen, checkMethod_isOk, checkPath_isOk, checkServiceClass_isOk,
              checkOptions_isOk, Bool.and_assoc]
  | undefV => rfl
  | null => rfl
  | boolV b => rfl
  | numV q => rfl
  | strV s => rfl
  | funcV j => rfl
  | extV j => rfl
  | objV fields => rfl

lemma validateRoutesFrom_isOk (routes : List JSVal) (n : String) :
    ∀ i : Nat, exOk (validateRoutesFrom routes n i) = routes.all codeRouteEntryOk := by
  induction routes with
  | nil => intro i; rfl
  | cons r rest ih =>
      intro i
      simp [validateRoutesFrom, exOk_andThen, validateRouteEntry_isOk, ih, List.all_cons]

lemma validateOptRoutes_isOk (routes : Option (List JSVal)) (n : String) :
    exOk (validateOptRoutes routes n) = (routes.getD []).all codeRouteEntryOk := by
  cases routes with
  | none => rfl
  | some rs => simp [validateOptRoutes, validateRoutesV, validateRoutesFrom_isOk]

/-- Stated from the claim: a global configuration passes validation exactly
when an execution strategy is present, a session loader accompanies a
non-empty authenticated route list, and every declared route entry is
well-formed in the code sense (`codeRouteEntryOk`). -/
def claimConfigOkAmended (config : BuilderConfig) : Bool :=
  !(config.runService.isNone && config.createService.isNone) &&
  !(servicesNonempty config && config.loadSession.isNone) &&
  (config.services.getD []).all codeRouteEntryOk &&
  (config.unauthenticatedServices.getD []).all codeRouteEntryOk

/-- Stated from the claim as frozen: a route entry with a 4th element is
well-formed only when that element is a plain object (an object literal —
not an array, not null, not a host object). -/
def claimRouteEntryOkPlain (route : JSVal) : Bool :=
  match route with
  | .arrV elems =>
      decide (3 ≤ elems.length ∧ elems.length ≤ 4) &&
      methodOk (elems.getD 0 .undefV) && pathOk (elems.getD 1 .undefV) &&
      callableOk (elems.getD 2 .undefV) &&
      (match elems.getD 3 .undefV with
       | .undefV => true
       | .objV fields =>
           optArray (jsGet fields "middlewares") &&
           optCallable (jsGet fields "runService") &&
           optCallable (jsGet fields "createService") &&
           optCallable (jsGet fields "mapError") &&
           optCallable (jsGet fields "extractInput")
       | _ => false)
  | _ => false

/-- C6 (counterexample): the route `['GET', '/x', fn, []]` carries an empty
array as its 4th element — not a plain object, so under the claim the
construction must fail — yet `#validateRoutes` accepts it: an array passes
`typeof options === 'object' && options !== null` and carries none of the
checked properties. -/
theorem route_options_array_accepted_c6_counterexample :
    validateRoutesV [.arrV [.strV "GET", .strV "/x", .funcV 0, .arrV []]] "services" = .ok ()
  ∧ claimRouteEntryOkPlain (.arrV [.strV "GET", .strV "/x", .funcV 0, .arrV []]) = false := by
  exact ⟨rfl, rfl⟩

/-- C6 (amended): construction validates eagerly and fails exactly when an
execution strategy is missing (citing the exact message), authenticated
routes exist with no session loader (citing the exact message), or some
route entry is malformed — where a present 4th element is required to be a
non-null value of `typeof` "object" (arrays included), with `middlewares`
absent-or-sequence and the four strategy overrides absent-or-callable; and
a successful construction stores the caller-supplied configuration (route
lists included) unchanged. -/
theorem construction_validation_c6_amended :
    (∀ config : BuilderConfig,
        exOk (validateConfigV config) = claimConfigOkAmended config)
  ∧ (∀ config : BuilderConfig, config.runService = none → config.createService = none →
        validateConfigV config = .error ("Either runService or createService is required"))
  ∧ (∀ config : BuilderConfig,
        servicesNonempty config = true → config.loadSession = none →
        (config.runService.isNone && config.createService.isNone) = false →
        validateConfigV config = .error ("loadSession is required when services are defined"))
  ∧ (∀ (config : BuilderConfig) (st : BuilderState), constructBuilder config = .ok st →
        st.config = config) := by
  refine ⟨?_, ?_, ?_, ?_⟩
  · intro config
    by_cases h1 : (config.runService.isNone && config.createService.isNone) = true
    · simp [validateConfigV, claimConfigOkAmended, h1, exOk]
    · rw [Bool.not_eq_true] at h1
      by_cases h2 : (servicesNonempty config && config.loadSession.isNone) = true
      · simp [validateConfigV, claimConfigOkAmended, h1, h2, exOk]
      · rw [Bool.not_eq_true] at h2
        simp [validateConfigV, claimConfigOkAmended, h1, h2,
              exOk_andThen, validateOptRoutes_isOk]
  · intro config hr hc
    simp [validateConfigV, hr, hc]
  · intro config hs hl hne
    simp [validateConfigV, hne, hs, hl]
  · intro config st h
    unfold constructBuilder at h
    cases hv : validateConfigV config with
    | error e => rw [hv] at h; exact absurd h (by simp)
    | ok u => rw [hv] at h; cases h; rfl

/-- Concrete run of `construction_validation_c6_amended`: a configuration
with neither execution strategy is rejected with the quoted message. -/
theorem construction_validation_c6_amended_witness :
    validateConfigV
      { runService := none, createService := none, extractInput := none
        mapError := none, loadSession := none, apiBaseUrl := none
        unauthenticatedApiBaseUrl := none, services := none
        unauthenticatedServices := none } =
      .error ("Either runService or createService is required") := by
  exact construction_validation_c6_amended.2.1 _ rfl rfl

/-- C7: the first `build()` on a freshly constructed builder succeeds,
registering the declared routes and installing the terminal error handler;
any later `build()` on the same instance fails, whatever happened in
between (any state with the `#built` flag set fails). -/
theorem build_once_c7 :
    (∀ (config : BuilderConfig) (st : BuilderState), constructBuilder config = .ok st →
        st.built = false
      ∧ buildV st = .ok { st with built := true, app := builtApp st.config })
  ∧ (∀ st st' : BuilderState, buildV st = .ok st' →
        buildV st' = .error ("build() can only be called once"))
  ∧ (∀ st : BuilderState, st.built = true →
        buildV st = .error ("build() can only be called once")) := by
  refine ⟨?_, ?_, ?_⟩
  · intro config st h
    unfold constructBuilder at h
    cases hv : validateConfigV config with
    | error e => rw [hv] at h; exact absurd h (by simp)
    | ok u =>
        rw [hv] at h
        cases h
        exact ⟨rfl, rfl⟩
  · intro st st' h
    unfold buildV at h ⊢
    by_cases hb : st.built = true
    · rw [if_pos hb] at h
      exact absurd h (by simp)
    · rw [Bool.not_eq_true] at hb
      rw [hb] at h
      simp only [Bool.false_eq_true, if_false] at h
      cases h
      simp
  · intro st h
    simp [buildV, h]

/-- Concrete run of `build_once_c7`: a builder with one authenticated route
builds once, and the built state refuses a second `build()`. -/
theorem build_once_c7_witness :
    buildV (initialState
      { runService := some fun _ _ => .ok .undefV, createService := none
        extractInput := none, mapError := none
        loadSession := some fun _ => .ok .undefV
        apiBaseUrl := none, unauthenticatedApiBaseUrl := none
        services := some [.arrV [.strV "GET", .strV "/users", .funcV 0]]
        unauthenticatedServices := none }) =
      .ok { initialState
              { runService := some fun _ _ => .ok .undefV, createService := none
                extractInput := none, mapError := none
                loadSession := some fun _ => .ok .undefV
                apiBaseUrl := none, unauthenticatedApiBaseUrl := none
                services := some [.arrV [.strV "GET", .strV "/users", .funcV 0]]
                unauthenticatedServices := none } with
            built := true
            app := builtApp
              { runService := some fun _ _ => .ok .undefV, createService := none
                extractInput := none, mapError := none
                loadSession := some fun _ => .ok .undefV
                apiBaseUrl := none, unauthenticatedApiBaseUrl := none
                services := some [.arrV [.strV "GET", .strV "/users", .funcV 0]]
                unauthenticatedServices := none } } := by
  exact (build_once_c7.1
    { runService := some fun _ _ => .ok .undefV, createService := none
      extractInput := none, mapError := none
      loadSession := some fun _ => .ok .undefV
      apiBaseUrl := none, unauthenticatedApiBaseUrl := none
      services := some [.arrV [.strV "GET", .strV "/users", .funcV 0]]
      unauthenticatedServices := none }
    (initialState
      { runService := some fun _ _ => .ok .undefV, createService := none
        extractInput := none, mapError := none
        loadSession := some fun _ => .ok .undefV
        apiBaseUrl := none, unauthenticatedApiBaseUrl := none
        services := some [.arrV [.strV "GET", .strV "/users", .funcV 0]]
        unauthenticatedServices := none }) rfl).2

/-! ## Body-parsing adapter (`src/middleware.ts`, `createJsonParserMiddleware`) -/

/-- Whether `needle` occurs as a contiguous run inside `haystack`
(JavaScript `String.prototype.includes` over characters). -/
def containsSub : List Char → List Char → Bool
  | [], needle => needle.isEmpty
  | c :: rest, needle => needle.isPrefixOf (c :: rest) || containsSub rest needle

/-- JavaScript `s.includes(sub)`. -/
def stringIncludes (s sub : String) : Bool :=
  containsSub s.toList sub.toList

/-- What the black-box `express.json` parser does on a given request:
parse the body, signal malformed JSON (a `SyntaxError` carrying a `body`
property, per the parser contract the adapter relies on), or fail some
other way (e.g. payload too large). -/
inductive BodyParseOutcome where
  | parsed (body : List (String × JSVal))
  | syntaxError (message : String)
  | otherError (e : Thrown)

/-- An inbound request as the adapter sees it: the declared content type
(`req.headers['content-type'] || ''`) and the underlying parser behaviour
on its raw body. -/
structure IncomingRequest where
  contentType : String
  jsonOutcome : BodyParseOutcome

/-- An error travelling down an Express error-handling chain. -/
inductive MwError where
  | syntaxWithBody (message : String)
  | syntaxNoBody (message : String)
  | other (e : Thrown)

/-- What the wrapped parser middleware does: proceed (with the body it
parsed, or untouched when skipped), or pass an error to the next error
handler. -/
inductive ParserStep where
  | next (parsedBody : Option (List (String × JSVal)))
  | nextError (e : MwError)

/-- The `wrappedJsonParser` of `createJsonParserMiddleware` (lines 22-28):
skip the JSON parser entirely for the multipart content-type family,
otherwise run it. -/
def wrappedJsonParser (req : IncomingRequest) : ParserStep :=
  if stringIncludes req.contentType "multipart/form-data" then
    .next none
  else
    match req.jsonOutcome with
    | .parsed body => .next (some body)
    | .syntaxError m => .nextError (.syntaxWithBody m)
    | .otherError e => .nextError (.other e)

/-- Outcome of the `jsonErrorHandler` error middleware: render a response
(with its error-level log calls) or pass the error on unchanged. -/
inductive ErrorHandlerStep where
  | rendered (resp : Response) (logs : List String)
  | nexted (e : MwError)

/-- The fixed 400 body `{success:false, error:{code:"BROKEN_JSON",
message:"Please verify your JSON"}}`. -/
def brokenJsonResponse : Response :=
  { status := 400,
    body := .failure [("code", .strV "BROKEN_JSON"),
                      ("message", .strV "Please verify your JSON")] }

/-- The `jsonErrorHandler` of `createJsonParserMiddleware` (lines 30-43):
`err instanceof SyntaxError && 'body' in err` renders the fixed 400 and
logs; every other error is handed to `next(err)` unchanged. -/
def jsonErrorHandler (err : MwError) : ErrorHandlerStep :=
  match err with
  | .syntaxWithBody m =>
      .rendered brokenJsonResponse ["Invalid JSON in request body: " ++ m]
  | e => .nexted e

/-- Outcome of the two-element middleware pair returned by
`createJsonParserMiddleware`. -/
inductive AdapterOut where
  | proceed (parsedBody : Option (List (String × JSVal)))
  | respond (resp : Response) (logs : List String)
  | passThrough (e : MwError)

/-- The adapter as installed by `#initializeMiddleware`: the wrapped parser
followed by the JSON error handler. -/
def bodyParsingAdapter (req : IncomingRequest) : AdapterOut :=
  match wrappedJsonParser req with
  | .next b => .proceed b
  | .nextError e =>
      match jsonErrorHandler e with
      | .rendered resp logs => .respond resp logs
      | .nexted e2 => .passThrough e2

/-- C8: a request whose declared JSON body fails to parse is answered with
status 400 and the fixed `BROKEN_JSON` envelope, and the failure is logged
at error level — the raw parser error never travels on; multipart requests
always skip the JSON parser entirely; every other error reaching the
adapter is passed through unmodified. -/
theorem json_body_adapter_c8 :
    (∀ (req : IncomingRequest) (m : String),
        stringIncludes req.contentType "multipart/form-data" = false →
        req.jsonOutcome = .syntaxError m →
          bodyParsingAdapter req =
            .respond brokenJsonResponse ["Invalid JSON in request body: " ++ m])
  ∧ (∀ req : IncomingRequest,
        stringIncludes req.contentType "multipart/form-data" = true →
          bodyParsingAdapter req = .proceed none)
  ∧ (∀ m : String, jsonErrorHandler (.syntaxNoBody m) = .nexted (.syntaxNoBody m))
  ∧ (∀ e : Thrown, jsonErrorHandler (.other e) = .nexted (.other e)) := by
  refine ⟨?_, ?_, ?_, ?_⟩
  · intro req m hct hout
    simp [bodyParsingAdapter, wrappedJsonParser, hct, hout, jsonErrorHandler]
  · intro req hct
    simp [bodyParsingAdapter, wrappedJsonParser, hct]
  · intro m
    rfl
  · intro e
    rfl

/-- Concrete run of `json_body_adapter_c8`: a malformed
`application/json` body yields the fixed 400 response and one log call. -/
theorem json_body_adapter_c8_witness :
    bodyParsingAdapter
      { contentType := "application/json"
        jsonOutcome := .syntaxError "Unexpected token j in JSON at position 12" } =
      .respond brokenJsonResponse
        ["Invalid JSON in request body: Unexpected token j in JSON at position 12"] := by
  exact json_body_adapter_c8.1
    { contentType := "application/json"
      jsonOutcome := .syntaxError "Unexpected token j in JSON at position 12" }
    "Unexpected token j in JSON at position 12" (by rfl) rfl

end Chista
